import Mathlib

/-!
Verification development for the metrics-rs-opentelemetry recorder.

The recorder glue (`src/recorder.rs`, `src/builder.rs`, `src/lib.rs`) is embedded
directly.  The `metrics_util` collaborator types (`Handle`, `Registry`, `Recency`,
`MetricKindMask`) are not part of this repository's sources; they are modelled from
the specification's description of the metric registry and export-snapshot
subsystem.  Time is abstracted to a natural-number clock reading passed to the
recency filter, and `f64` sample/gauge values are modelled as rationals (only
append, add, subtract and replace are performed on them, never rounding-sensitive
arithmetic).
-/

/-- A metric key (`metrics::Key`): a name plus an ordered list of label pairs. -/
structure Key where
  name : String
  labels : List (String × String)
deriving DecidableEq

/-- The three gauge update variants of `metrics::GaugeValue`. -/
inductive GaugeValue where
  | Increment (v : ℚ)
  | Decrement (v : ℚ)
  | Absolute (v : ℚ)
deriving DecidableEq

/-- The metric kinds of `metrics_util::MetricKind`. -/
inductive MetricKind where
  | Counter
  | Gauge
  | Histogram
deriving DecidableEq

/-- Modelled from the spec: `metrics_util::Handle`, "a mutable cell holding the live
value of one metric instance (one of: monotonic counter, bidirectional gauge,
histogram sample buffer)".  The source crate only declares it; its behaviour
follows the spec's data model (section 3) and the silent-drop policy for
kind-mismatched operations (section 7). -/
inductive Handle where
  | Counter (value : ℕ)
  | Gauge (value : ℚ)
  | Histogram (values : List ℚ)
deriving DecidableEq

/-- Rust `Handle::counter()`: a fresh counter handle holding zero; this is the
initialisation function passed to every `registry.op` call in `recorder.rs`. -/
def Handle.counter : Handle := Handle.Counter 0

/-- Modelled from the spec: `Handle::increment_counter` adds to the monotone
unsigned accumulator; a kind-mismatched call is silently dropped. -/
def Handle.increment_counter (h : Handle) (value : ℕ) : Handle :=
  match h with
  | Handle.Counter c => Handle.Counter (c + value)
  | h => h

/-- Modelled from the spec: `Handle::update_gauge` supports
increment/decrement/absolute-set on the signed accumulator; a kind-mismatched
call is silently dropped. -/
def Handle.update_gauge (h : Handle) (value : GaugeValue) : Handle :=
  match h with
  | Handle.Gauge g =>
    match value with
    | GaugeValue.Increment v => Handle.Gauge (g + v)
    | GaugeValue.Decrement v => Handle.Gauge (g - v)
    | GaugeValue.Absolute v => Handle.Gauge v
  | h => h

/-- Modelled from the spec: `Handle::record_histogram` appends to the sample
buffer; a kind-mismatched call is silently dropped. -/
def Handle.record_histogram (h : Handle) (value : ℚ) : Handle :=
  match h with
  | Handle.Histogram l => Handle.Histogram (l ++ [value])
  | h => h

/-- Modelled from the spec: `Handle::read_counter`, a non-destructive atomic read
of the counter accumulator. -/
def Handle.read_counter (h : Handle) : ℕ :=
  match h with
  | Handle.Counter c => c
  | _ => 0

/-- Modelled from the spec: `Handle::read_gauge`, a non-destructive atomic read of
the gauge accumulator. -/
def Handle.read_gauge (h : Handle) : ℚ :=
  match h with
  | Handle.Gauge g => g
  | _ => 0

/-- Modelled from the spec: `Handle::read_histogram_with_clear`, which atomically
hands over the accumulated samples and clears the buffer as one operation. -/
def Handle.read_histogram_with_clear (h : Handle) : List ℚ × Handle :=
  match h with
  | Handle.Histogram l => (l, Handle.Histogram [])
  | h => ([], h)

/-- Whether a handle is the counter variant. -/
def Handle.isCounterVariant (h : Handle) : Bool :=
  match h with
  | Handle.Counter _ => true
  | _ => false

/-- The true registry key: a `(MetricKind, Key)` pair. -/
abbrev RegistryKey := MetricKind × Key

/-- Modelled from the spec: `metrics_util::Registry`, "a concurrent map from
`(Kind, MetricKey)` to `(generation, MetricHandle)`".  The map is embedded as a
lookup function; the generation is bumped on every `op` call. -/
structure Registry where
  get : RegistryKey → Option (ℕ × Handle)

/-- The empty registry produced by `Registry::tracked()`. -/
def Registry.tracked : Registry := ⟨fun _ => none⟩

/-- Modelled from the spec: `Registry::op` — "the single entry point for all value
updates — looks up or creates the handle, then applies `mutate_fn` to it, bumping
its generation". -/
def Registry.op (r : Registry) (kind : MetricKind) (key : Key)
    (op_fn : Handle → Handle) (init_fn : Handle) : Registry :=
  ⟨fun rk =>
    if rk = (kind, key) then
      match r.get (kind, key) with
      | some (gen, h) => some (gen + 1, op_fn h)
      | none => some (0, op_fn init_fn)
    else r.get rk⟩

/-- Removing one entry from the registry (used by recency eviction). -/
def Registry.evict (r : Registry) (rk : RegistryKey) : Registry :=
  ⟨fun rk2 => if rk2 = rk then none else r.get rk2⟩

/-- Modelled from the spec: `metrics_util::MetricKindMask`, the bitmask restricting
which kinds participate in staleness tracking. -/
structure MetricKindMask where
  counter : Bool
  gauge : Bool
  histogram : Bool
deriving DecidableEq

/-- Rust `MetricKindMask::ALL`. -/
def MetricKindMask.ALL : MetricKindMask := ⟨true, true, true⟩

/-- Rust `MetricKindMask::NONE`. -/
def MetricKindMask.NONE : MetricKindMask := ⟨false, false, false⟩

/-- Whether a kind is included in the mask. -/
def MetricKindMask.matches (m : MetricKindMask) (kind : MetricKind) : Bool :=
  match kind with
  | MetricKind.Counter => m.counter
  | MetricKind.Gauge => m.gauge
  | MetricKind.Histogram => m.histogram

/-- Modelled from the spec: `metrics_util::Recency`, the per-metric last-observed
generation/timestamp bookkeeping.  The wall clock is abstracted: `should_store`
receives the current time as a natural number. -/
structure Recency where
  mask : MetricKindMask
  idle_timeout : Option ℕ
  lastSeen : RegistryKey → Option (ℕ × ℕ)

/-- Rust `Recency::new` with an abstracted clock. -/
def Recency.new (mask : MetricKindMask) (idle_timeout : Option ℕ) : Recency :=
  ⟨mask, idle_timeout, fun _ => none⟩

/-- Modelled from the spec: `Recency::should_store` (section 4.2).  If no idle
timeout is configured or the kind is excluded from the mask, it always returns
true and is a no-op.  Otherwise it compares the handle's generation with the one
recorded at the previous export: unchanged generation plus elapsed time beyond
the timeout means stale — return false and evict the registry entry; otherwise
the metric is fresh and the bookkeeping is updated. -/
def Recency.should_store (rec : Recency) (kind : MetricKind) (key : Key)
    (gen : ℕ) (registry : Registry) (now : ℕ) : Bool × Recency × Registry :=
  match rec.idle_timeout with
  | none => (true, rec, registry)
  | some t =>
    if rec.mask.matches kind = false then (true, rec, registry)
    else
      match rec.lastSeen (kind, key) with
      | none =>
        (true,
         { rec with lastSeen := fun rk =>
            if rk = (kind, key) then some (gen, now) else rec.lastSeen rk },
         registry)
      | some (lastGen, lastTime) =>
        if gen ≠ lastGen then
          (true,
           { rec with lastSeen := fun rk =>
              if rk = (kind, key) then some (gen, now) else rec.lastSeen rk },
           registry)
        else if now - lastTime > t then
          (false,
           { rec with lastSeen := fun rk =>
              if rk = (kind, key) then none else rec.lastSeen rk },
           registry.evict (kind, key))
        else (true, rec, registry)

/-- The shared state of `recorder.rs`'s `MeterRecorder` (the fields of `Inner`;
the OpenTelemetry `Meter` itself carries no state the claims touch). -/
structure MeterRecorder where
  recency : Recency
  registry : Registry
  descriptions : String → Option String
  units : String → Option String

/-- Rust `MeterRecorder::add_details_if_missing` (`recorder.rs` lines 34-53): inserts
the description and unit for the key's name only when the respective map does not
already contain that name. -/
def MeterRecorder.add_details_if_missing (self : MeterRecorder) (key : Key)
    (description : Option String) (unit : Option String) : MeterRecorder :=
  let s1 :=
    match description with
    | some d =>
      if (self.descriptions key.name).isSome then self
      else { self with descriptions := fun n =>
              if n = key.name then some d else self.descriptions n }
    | none => self
  match unit with
  | some u =>
    if (s1.units key.name).isSome then s1
    else { s1 with units := fun n => if n = key.name then some u else s1.units n }
  | none => s1

/-- Rust `MeterRecorder::register_counter` (`recorder.rs` lines 57-84), restricted to
its state effect: record details, then `registry.op(Counter, key, |_| {},
Handle::counter)`.  The observer closure it installs is embedded separately as
`counter_observer`. -/
def MeterRecorder.register_counter (self : MeterRecorder) (key : Key)
    (unit : Option String) (description : Option String) : MeterRecorder :=
  let s := self.add_details_if_missing key description unit
  { s with registry := s.registry.op MetricKind.Counter key (fun h => h) Handle.counter }

/-- Rust `MeterRecorder::register_gauge` (`recorder.rs` lines 86-112): note the init
function is `Handle::counter`, exactly as written in the source. -/
def MeterRecorder.register_gauge (self : MeterRecorder) (key : Key)
    (unit : Option String) (description : Option String) : MeterRecorder :=
  let s := self.add_details_if_missing key description unit
  { s with registry := s.registry.op MetricKind.Gauge key (fun h => h) Handle.counter }

/-- Rust `MeterRecorder::register_histogram` (`recorder.rs` lines 114-144): note the
init function is `Handle::counter`, exactly as written in the source. -/
def MeterRecorder.register_histogram (self : MeterRecorder) (key : Key)
    (unit : Option String) (description : Option String) : MeterRecorder :=
  let s := self.add_details_if_missing key description unit
  { s with registry := s.registry.op MetricKind.Histogram key (fun h => h) Handle.counter }

/-- Rust `MeterRecorder::increment_counter` (`recorder.rs` lines 146-153). -/
def MeterRecorder.increment_counter (self : MeterRecorder) (key : Key)
    (value : ℕ) : MeterRecorder :=
  { self with registry := (
      self.registry.op MetricKind.Counter key (fun h => h.increment_counter value)
        Handle.counter) }

/-- Rust `MeterRecorder::update_gauge` (`recorder.rs` lines 155-162): note the init
function is `Handle::counter`, exactly as written in the source. -/
def MeterRecorder.update_gauge (self : MeterRecorder) (key : Key)
    (value : GaugeValue) : MeterRecorder :=
  { self with registry := (
      self.registry.op MetricKind.Gauge key (fun h => h.update_gauge value)
        Handle.counter) }

/-- Rust `MeterRecorder::record_histogram` (`recorder.rs` lines 164-171): note the init
function is `Handle::counter`, exactly as written in the source. -/
def MeterRecorder.record_histogram (self : MeterRecorder) (key : Key)
    (value : ℚ) : MeterRecorder :=
  { self with registry := (
      self.registry.op MetricKind.Histogram key (fun h => h.record_histogram value)
        Handle.counter) }

/-- The observer closure installed by `register_counter` (`recorder.rs` lines
67-82): snapshot the handles, look up `(Counter, key)`, consult
`recency.should_store`, and if it passes, observe `read_counter` of the snapshot
handle.  Returns the observed value (if any) and the post-pass recorder state. -/
def counter_observer (self : MeterRecorder) (key : Key) (now : ℕ) :
    Option ℕ × MeterRecorder :=
  match self.registry.get (MetricKind.Counter, key) with
  | none => (none, self)
  | some (gen, h) =>
    let r := self.recency.should_store MetricKind.Counter key gen self.registry now
    let s2 := { self with recency := r.2.1, registry := r.2.2 }
    if r.1 then (some h.read_counter, s2) else (none, s2)

/-- The observer closure installed by `register_histogram` (`recorder.rs` lines
124-143): snapshot, look up `(Histogram, key)`, consult `recency.should_store`,
and if it passes, `read_histogram_with_clear` the handle, observing every sample.
Clearing mutates the handle shared with the registry, so the registry entry's
handle is replaced by the cleared handle. -/
def histogram_observer (self : MeterRecorder) (key : Key) (now : ℕ) :
    List ℚ × MeterRecorder :=
  match self.registry.get (MetricKind.Histogram, key) with
  | none => ([], self)
  | some (gen, h) =>
    let r := self.recency.should_store MetricKind.Histogram key gen self.registry now
    if r.1 then
      let rc := h.read_histogram_with_clear
      let reg3 : Registry :=
        ⟨fun rk =>
          if rk = (MetricKind.Histogram, key) then
            (r.2.2.get rk).map (fun gh => (gh.1, rc.2))
          else r.2.2.get rk⟩
      (rc.1, { self with recency := r.2.1, registry := reg3 })
    else ([], { self with recency := r.2.1, registry := r.2.2 })

/-- Rust `OtelBuilder` (`builder.rs`): the configuration state the claims touch (the
clock is abstracted, the meter provider carries no claim-relevant state). -/
structure OtelBuilder where
  idle_timeout : Option ℕ
  mask : MetricKindMask

/-- Rust `OtelBuilder::new` / `new_with_global` (`builder.rs` lines 21-39): no idle
timeout, mask `ALL`. -/
def OtelBuilder.new : OtelBuilder :=
  { idle_timeout := none, mask := MetricKindMask.ALL }

/-- Rust `OtelBuilder::timeout` (`builder.rs` lines 41-49): store the timeout; if it is
`None` the mask becomes `NONE`, otherwise the given mask is stored. -/
def OtelBuilder.timeout (self : OtelBuilder) (mask : MetricKindMask)
    (t : Option ℕ) : OtelBuilder :=
  { self with
    idle_timeout := t
    mask := if t.isNone then MetricKindMask.NONE else mask }

/-- Rust `OtelBuilder::build` (`builder.rs` lines 56-70): a recorder over a fresh
tracked registry, a recency filter from the configured mask and timeout, and
empty description/unit maps. -/
def OtelBuilder.build (self : OtelBuilder) : MeterRecorder :=
  { recency := Recency.new self.mask self.idle_timeout
    registry := Registry.tracked
    descriptions := fun _ => none
    units := fun _ => none }

/-- The per-name instrument state of `lib.rs`'s name-keyed `MeterRecorder`
(`enum Metric`): the OpenTelemetry instrument internals are abstracted to the
value they accumulate. -/
inductive Metric where
  | Counter (value : ℕ)
  | Gauge (value : ℚ)
  | Histogram (values : List ℚ)
deriving DecidableEq

/-- The `lib.rs` `MeterRecorder` (lines 25-28): a map from metric name to the
bound instrument. -/
structure SyncMeterRecorder where
  metrics : String → Option Metric

/-- The `lib.rs` `register_gauge` (lines 48-63): builds a fresh up-down counter and
inserts it under the key's name, replacing any existing entry. -/
def SyncMeterRecorder.register_gauge (self : SyncMeterRecorder) (key : Key)
    (_unit : Option String) (_description : Option String) : SyncMeterRecorder :=
  ⟨fun n => if n = key.name then some (Metric.Gauge 0) else self.metrics n⟩

/-- The `lib.rs` `update_gauge` (lines 89-98): if the name maps to a gauge,
`Increment(v)` adds `v`, `Decrement(v)` adds `-v`, and `Absolute(_)` does
nothing at all; any other case is a no-op. -/
def SyncMeterRecorder.update_gauge (self : SyncMeterRecorder) (key : Key)
    (value : GaugeValue) : SyncMeterRecorder :=
  match self.metrics key.name with
  | some (Metric.Gauge g) =>
    match value with
    | GaugeValue.Increment v =>
      ⟨fun n => if n = key.name then some (Metric.Gauge (g + v)) else self.metrics n⟩
    | GaugeValue.Decrement v =>
      ⟨fun n => if n = key.name then some (Metric.Gauge (g + -v)) else self.metrics n⟩
    | GaugeValue.Absolute _ => self
  | _ => self

/-- One call to the `recorder.rs` recorder interface. -/
inductive RecOp where
  | registerCounter (key : Key) (unit description : Option String)
  | registerGauge (key : Key) (unit description : Option String)
  | registerHistogram (key : Key) (unit description : Option String)
  | incrementCounter (key : Key) (value : ℕ)
  | updateGauge (key : Key) (value : GaugeValue)
  | recordHistogram (key : Key) (value : ℚ)

/-- Apply one recorder call to the recorder state. -/
def RecOp.apply (o : RecOp) (s : MeterRecorder) : MeterRecorder :=
  match o with
  | RecOp.registerCounter key unit description => s.register_counter key unit description
  | RecOp.registerGauge key unit description => s.register_gauge key unit description
  | RecOp.registerHistogram key unit description => s.register_histogram key unit description
  | RecOp.incrementCounter key value => s.increment_counter key value
  | RecOp.updateGauge key value => s.update_gauge key value
  | RecOp.recordHistogram key value => s.record_histogram key value

/-- Run a sequence of recorder calls. -/
def runOps (ops : List RecOp) (s : MeterRecorder) : MeterRecorder :=
  ops.foldl (fun s o => o.apply s) s

/-- Apply a sequence of `increment_counter` calls for one key. -/
def applyIncrements (s : MeterRecorder) (key : Key) (ds : List ℕ) : MeterRecorder :=
  ds.foldl (fun s d => s.increment_counter key d) s

/-- Every handle stored in the registry is a counter-variant handle. -/
def counterOnly (r : Registry) : Prop :=
  ∀ rk gen h, r.get rk = some (gen, h) → h.isCounterVariant = true

/-- A concrete demonstration key. -/
def kDemo : Key := ⟨"requests_total", [("route", "a")]⟩

/-- A second concrete demonstration key. -/
def kDemo2 : Key := ⟨"response_time", []⟩

/-- A third concrete demonstration key. -/
def kDemo3 : Key := ⟨"queue_depth", []⟩

/-- A fourth concrete demonstration key. -/
def kDemo4 : Key := ⟨"latency_seconds", []⟩

/-- Calling `add_details_if_missing` never touches the registry. -/
lemma add_details_if_missing_registry (s : MeterRecorder) (k : Key)
    (d u : Option String) :
    (s.add_details_if_missing k d u).registry = s.registry := by
  unfold MeterRecorder.add_details_if_missing
  cases d <;> cases u <;> dsimp only <;> (repeat' split) <;> rfl

/-- Calling `add_details_if_missing` never touches the recency filter. -/
lemma add_details_if_missing_recency (s : MeterRecorder) (k : Key)
    (d u : Option String) :
    (s.add_details_if_missing k d u).recency = s.recency := by
  unfold MeterRecorder.add_details_if_missing
  cases d <;> cases u <;> dsimp only <;> (repeat' split) <;> rfl

/-- Reading the slot an `op` call targeted: the existing handle is mutated and its
generation bumped, or a fresh handle is created from the init function. -/
lemma Registry.op_get_self (r : Registry) (kind : MetricKind) (key : Key)
    (f : Handle → Handle) (i : Handle) :
    (r.op kind key f i).get (kind, key)
      = match r.get (kind, key) with
        | some (gen, h) => some (gen + 1, f h)
        | none => some (0, f i) := by
  simp [Registry.op]

/-- Reading any other slot after an `op` call: unchanged. -/
lemma Registry.op_get_ne (r : Registry) (kind : MetricKind) (key : Key)
    (f : Handle → Handle) (i : Handle) (rk : RegistryKey)
    (hne : rk ≠ (kind, key)) :
    (r.op kind key f i).get rk = r.get rk := by
  simp [Registry.op, hne]

/-- After an `op` call, the targeted slot is occupied. -/
lemma Registry.op_get_self_isSome (r : Registry) (kind : MetricKind) (key : Key)
    (f : Handle → Handle) (i : Handle) :
    ((r.op kind key f i).get (kind, key)).isSome = true := by
  rw [Registry.op_get_self]
  rcases r.get (kind, key) with _ | ⟨gen, h⟩ <;> simp

/-- With no idle timeout configured, `should_store` returns true and changes
nothing. -/
lemma should_store_no_timeout (rec : Recency) (h : rec.idle_timeout = none)
    (kind : MetricKind) (key : Key) (gen : ℕ) (reg : Registry) (now : ℕ) :
    rec.should_store kind key gen reg now = (true, rec, reg) := by
  obtain ⟨m, t, ls⟩ := rec
  cases t with
  | none => rfl
  | some t0 => exact absurd h (by simp)

/-- On a recency filter that has never observed the key (in particular a freshly
built one), `should_store` answers true. -/
lemma should_store_fresh_fst (rec : Recency) (h : rec.lastSeen = fun _ => none)
    (kind : MetricKind) (key : Key) (gen : ℕ) (reg : Registry) (now : ℕ) :
    (rec.should_store kind key gen reg now).1 = true := by
  obtain ⟨m, t, ls⟩ := rec
  cases t with
  | none => rfl
  | some t0 =>
    simp only at h
    subst h
    simp only [Recency.should_store]
    split <;> rfl

/-- A description already present for a name survives any later
`add_details_if_missing` call. -/
lemma add_details_if_missing_descriptions_mono (s : MeterRecorder) (k : Key)
    (d u : Option String) (name dv : String)
    (h : s.descriptions name = some dv) :
    (s.add_details_if_missing k d u).descriptions name = some dv := by
  unfold MeterRecorder.add_details_if_missing
  cases d <;> cases u <;> dsimp only <;> (repeat' split) <;>
    first
      | exact h
      | (by_cases hn : name = k.name
         · subst hn
           simp_all
         · simp [hn, h])

/-- A unit already present for a name survives any later
`add_details_if_missing` call. -/
lemma add_details_if_missing_units_mono (s : MeterRecorder) (k : Key)
    (d u : Option String) (name uv : String)
    (h : s.units name = some uv) :
    (s.add_details_if_missing k d u).units name = some uv := by
  unfold MeterRecorder.add_details_if_missing
  cases d <;> cases u <;> dsimp only <;> (repeat' split) <;>
    first
      | exact h
      | (by_cases hn : name = k.name
         · subst hn
           simp_all
         · simp [hn, h])

/-- The registry shape of `register_counter`. -/
lemma register_counter_registry (s : MeterRecorder) (k : Key)
    (u d : Option String) :
    (s.register_counter k u d).registry
      = s.registry.op MetricKind.Counter k (fun h => h) Handle.counter := by
  show (s.add_details_if_missing k d u).registry.op MetricKind.Counter k
      (fun h => h) Handle.counter
    = s.registry.op MetricKind.Counter k (fun h => h) Handle.counter
  rw [add_details_if_missing_registry]

/-- The registry shape of `register_gauge`. -/
lemma register_gauge_registry (s : MeterRecorder) (k : Key)
    (u d : Option String) :
    (s.register_gauge k u d).registry
      = s.registry.op MetricKind.Gauge k (fun h => h) Handle.counter := by
  show (s.add_details_if_missing k d u).registry.op MetricKind.Gauge k
      (fun h => h) Handle.counter
    = s.registry.op MetricKind.Gauge k (fun h => h) Handle.counter
  rw [add_details_if_missing_registry]

/-- The registry shape of `register_histogram`. -/
lemma register_histogram_registry (s : MeterRecorder) (k : Key)
    (u d : Option String) :
    (s.register_histogram k u d).registry
      = s.registry.op MetricKind.Histogram k (fun h => h) Handle.counter := by
  show (s.add_details_if_missing k d u).registry.op MetricKind.Histogram k
      (fun h => h) Handle.counter
    = s.registry.op MetricKind.Histogram k (fun h => h) Handle.counter
  rw [add_details_if_missing_registry]

/-- The details maps of the register operations are those produced by
`add_details_if_missing`. -/
lemma register_counter_descriptions (s : MeterRecorder) (k : Key)
    (u d : Option String) :
    (s.register_counter k u d).descriptions
      = (s.add_details_if_missing k d u).descriptions := rfl

/-- Calling `increment_counter` touches only the registry. -/
lemma increment_counter_recency (s : MeterRecorder) (k : Key) (v : ℕ) :
    (s.increment_counter k v).recency = s.recency := rfl

/-- Folding a list of `increment_counter` calls over a state whose counter handle
for the key holds `c` leaves a counter handle holding `c` plus the sum of the
deltas (with the generation bumped once per call). -/
lemma applyIncrements_get (key : Key) :
    ∀ (ds : List ℕ) (s : MeterRecorder) (gen c : ℕ),
      s.registry.get (MetricKind.Counter, key) = some (gen, Handle.Counter c) →
      (applyIncrements s key ds).registry.get (MetricKind.Counter, key)
        = some (gen + ds.length, Handle.Counter (c + ds.sum)) := by
  intro ds
  induction ds with
  | nil =>
    intro s gen c hs
    simpa [applyIncrements] using hs
  | cons d ds ih =>
    intro s gen c hs
    have hstep : (s.increment_counter key d).registry.get (MetricKind.Counter, key)
        = some (gen + 1, Handle.Counter (c + d)) := by
      show ((s.registry.op MetricKind.Counter key
          (fun h => h.increment_counter d) Handle.counter).get (MetricKind.Counter, key))
        = some (gen + 1, Handle.Counter (c + d))
      rw [Registry.op_get_self, hs]
      rfl
    have := ih (s.increment_counter key d) (gen + 1) (c + d) hstep
    have hlist : applyIncrements s key (d :: ds)
        = applyIncrements (s.increment_counter key d) key ds := rfl
    rw [hlist, this]
    have h1 : gen + 1 + ds.length = gen + (d :: ds).length := by
      simp only [List.length_cons]
      omega
    have h2 : c + d + ds.sum = c + (d :: ds).sum := by
      simp only [List.sum_cons]
      omega
    rw [h1, h2]

/-- Folding `increment_counter` calls never touches the recency filter. -/
lemma applyIncrements_recency (key : Key) :
    ∀ (ds : List ℕ) (s : MeterRecorder),
      (applyIncrements s key ds).recency = s.recency := by
  intro ds
  induction ds with
  | nil => intro s; rfl
  | cons d ds ih =>
    intro s
    have hlist : applyIncrements s key (d :: ds)
        = applyIncrements (s.increment_counter key d) key ds := rfl
    rw [hlist, ih]
    rfl

/-- An `op` call whose init function is `Handle::counter` and whose mutation maps
counter-variant handles to counter-variant handles preserves the all-counters
registry invariant. -/
lemma counterOnly_op (r : Registry) (kind : MetricKind) (key : Key)
    (f : Handle → Handle) (hr : counterOnly r)
    (hf : ∀ h, h.isCounterVariant = true → (f h).isCounterVariant = true) :
    counterOnly (r.op kind key f Handle.counter) := by
  intro rk gen h hget
  by_cases hrk : rk = (kind, key)
  · subst hrk
    rw [Registry.op_get_self] at hget
    rcases hcase : r.get (kind, key) with _ | ⟨g0, h0⟩ <;> rw [hcase] at hget
    · simp only [Option.some.injEq, Prod.mk.injEq] at hget
      rw [← hget.2]
      exact hf Handle.counter rfl
    · simp only [Option.some.injEq, Prod.mk.injEq] at hget
      rw [← hget.2]
      exact hf h0 (hr (kind, key) g0 h0 hcase)
  · rw [Registry.op_get_ne r kind key f Handle.counter rk hrk] at hget
    exact hr rk gen h hget

/-- Calling `increment_counter` keeps counter-variant handles counter-variant. -/
lemma increment_counter_keeps_variant (v : ℕ) :
    ∀ h : Handle, h.isCounterVariant = true → (h.increment_counter v).isCounterVariant = true := by
  intro h hh
  cases h <;> simp_all [Handle.increment_counter, Handle.isCounterVariant]

/-- Calling `update_gauge` keeps counter-variant handles counter-variant (it drops the
update entirely on a counter handle). -/
lemma update_gauge_keeps_variant (gv : GaugeValue) :
    ∀ h : Handle, h.isCounterVariant = true → (h.update_gauge gv).isCounterVariant = true := by
  intro h hh
  cases h <;> simp_all [Handle.update_gauge, Handle.isCounterVariant]

/-- Calling `record_histogram` keeps counter-variant handles counter-variant (it drops the
sample entirely on a counter handle). -/
lemma record_histogram_keeps_variant (v : ℚ) :
    ∀ h : Handle, h.isCounterVariant = true → (h.record_histogram v).isCounterVariant = true := by
  intro h hh
  cases h <;> simp_all [Handle.record_histogram, Handle.isCounterVariant]

/-- Every single recorder call preserves the all-counters registry invariant. -/
lemma counterOnly_apply (o : RecOp) (s : MeterRecorder)
    (hs : counterOnly s.registry) : counterOnly (o.apply s).registry := by
  cases o with
  | registerCounter key unit description =>
    show counterOnly (s.register_counter key unit description).registry
    rw [register_counter_registry]
    exact counterOnly_op s.registry MetricKind.Counter key (fun h => h) hs (fun h hh => hh)
  | registerGauge key unit description =>
    show counterOnly (s.register_gauge key unit description).registry
    rw [register_gauge_registry]
    exact counterOnly_op s.registry MetricKind.Gauge key (fun h => h) hs (fun h hh => hh)
  | registerHistogram key unit description =>
    show counterOnly (s.register_histogram key unit description).registry
    rw [register_histogram_registry]
    exact counterOnly_op s.registry MetricKind.Histogram key (fun h => h) hs (fun h hh => hh)
  | incrementCounter key value =>
    exact counterOnly_op s.registry MetricKind.Counter key
      (fun h => h.increment_counter value) hs (increment_counter_keeps_variant value)
  | updateGauge key value =>
    exact counterOnly_op s.registry MetricKind.Gauge key
      (fun h => h.update_gauge value) hs (update_gauge_keeps_variant value)
  | recordHistogram key value =>
    exact counterOnly_op s.registry MetricKind.Histogram key
      (fun h => h.record_histogram value) hs (record_histogram_keeps_variant value)

/-- Calling `register_counter` never touches the recency filter. -/
lemma register_counter_recency (s : MeterRecorder) (k : Key) (u d : Option String) :
    (s.register_counter k u d).recency = s.recency := by
  show (s.add_details_if_missing k d u).recency = s.recency
  exact add_details_if_missing_recency s k d u

/-- The counter observer reports exactly the value held by the counter handle
whenever the recency filter has never observed any key (in particular on the
first export pass of a freshly built recorder). -/
lemma counter_observer_reads_handle (s : MeterRecorder) (k : Key)
    (now gen c : ℕ)
    (hget : s.registry.get (MetricKind.Counter, k) = some (gen, Handle.Counter c))
    (hfresh : s.recency.lastSeen = fun _ => none) :
    (counter_observer s k now).1 = some c := by
  unfold counter_observer
  rw [hget]
  dsimp only
  rw [should_store_fresh_fst s.recency hfresh MetricKind.Counter k gen s.registry now]
  rfl

/-- C1: for every sequence of `increment_counter` calls on a single key summing
to total T, with no export pass in between, the next export pass's counter
observer reports exactly T for that key: the handle read by the observer holds
the sum of all deltas ever passed to `increment_counter`.  Stated for a recorder
built by `OtelBuilder::build` under any configuration (the first pass of a fresh
recorder always passes the recency filter). -/
theorem counter_sum_reported (b : OtelBuilder) (k : Key) (u d : Option String)
    (ds : List ℕ) (now : ℕ) :
    (counter_observer (applyIncrements ((b.build).register_counter k u d) k ds) k now).1
      = some ds.sum := by
  have h0 : ((b.build).register_counter k u d).registry.get (MetricKind.Counter, k)
      = some (0, Handle.Counter 0) := by
    rw [register_counter_registry, Registry.op_get_self]
    rfl
  have hget := applyIncrements_get k ds ((b.build).register_counter k u d) 0 0 h0
  have hfresh : (applyIncrements ((b.build).register_counter k u d) k ds).recency.lastSeen
      = fun _ => none := by
    rw [applyIncrements_recency, register_counter_recency]
    rfl
  have := counter_observer_reads_handle
    (applyIncrements ((b.build).register_counter k u d) k ds) k now
    (0 + ds.length) (0 + ds.sum) hget hfresh
  rw [this, Nat.zero_add]

/-- C2: evaluation of the code at a failing input.  A sample recorded via
`record_histogram` strictly before the export pass is delivered in no pass at
all: the registry entry created for the histogram key is a counter-variant
handle (init `Handle::counter`), so the sample was silently dropped, the
observer's `read_histogram_with_clear` yields an empty batch, and the post-pass
state still holds the same counter-variant handle, so every later pass also
yields an empty batch — contradicting exactly-once delivery. -/
theorem histogram_sample_never_exported :
    (((OtelBuilder.new.build).record_histogram kDemo2 1).registry.get
        (MetricKind.Histogram, kDemo2) = some (0, Handle.Counter 0))
    ∧ ((histogram_observer ((OtelBuilder.new.build).record_histogram kDemo2 1) kDemo2 0).1
        = [])
    ∧ ((histogram_observer ((OtelBuilder.new.build).record_histogram kDemo2 1)
          kDemo2 0).2.registry.get (MetricKind.Histogram, kDemo2)
        = some (0, Handle.Counter 0)) := by
  refine ⟨by decide, by decide, by decide⟩

/-- C3: evaluation of the code at a failing input.  After one
`record_histogram(key, 1.0)` call on a fresh recorder, the key's registry entry
is the counter-variant handle `Handle::counter()` — there is no sample buffer
and reading it with clear yields no samples — instead of a histogram handle
holding the single sample. -/
theorem record_histogram_buffer_empty :
    (((OtelBuilder.new.build).record_histogram kDemo4 1).registry.get
        (MetricKind.Histogram, kDemo4) = some (0, Handle.Counter 0))
    ∧ (Handle.read_histogram_with_clear (Handle.Counter 0) = ([], Handle.Counter 0)) := by
  refine ⟨by decide, by decide⟩

/-- C4: evaluation of the code at failing inputs.  In the registry recorder
(`recorder.rs`), `update_gauge(key, Increment(5))` on a fresh recorder leaves the
gauge entry as the counter-variant handle holding zero — the increment is
silently dropped because every handle is initialised with `Handle::counter` —
and the value an observer would read is 0, not 5.  In the name-keyed recorder
(`lib.rs`), `update_gauge(key, Absolute(7))` after `register_gauge` leaves the
gauge at 0: the `Absolute` arm is an explicit no-op rather than replacing the
value. -/
theorem update_gauge_variants_dropped :
    (((OtelBuilder.new.build).update_gauge kDemo3 (GaugeValue.Increment 5)).registry.get
        (MetricKind.Gauge, kDemo3) = some (0, Handle.Counter 0))
    ∧ (Handle.read_gauge (Handle.Counter 0) = 0)
    ∧ (((SyncMeterRecorder.register_gauge ⟨fun _ => none⟩ kDemo3 none none).update_gauge
          kDemo3 (GaugeValue.Absolute 7)).metrics kDemo3.name = some (Metric.Gauge 0)) := by
  refine ⟨by decide, by decide, by decide⟩

/-- C5: registration is implicit.  A first `increment_counter` on a key that was
never registered does not fail: the registry's get-or-create builds a usable
counter handle and applies the delta, and the stored handle is the same as the
one obtained by calling `register_counter` first and then incrementing. -/
theorem implicit_counter_registration (s : MeterRecorder) (k : Key) (v : ℕ)
    (h : s.registry.get (MetricKind.Counter, k) = none) :
    ((s.increment_counter k v).registry.get (MetricKind.Counter, k)
        = some (0, Handle.Counter v))
    ∧ (((s.increment_counter k v).registry.get (MetricKind.Counter, k)).map Prod.snd
        = (((s.register_counter k none none).increment_counter k v).registry.get
            (MetricKind.Counter, k)).map Prod.snd) := by
  have h1 : (s.increment_counter k v).registry.get (MetricKind.Counter, k)
      = some (0, Handle.Counter v) := by
    show ((s.registry.op MetricKind.Counter k (fun h => h.increment_counter v)
        Handle.counter).get (MetricKind.Counter, k)) = some (0, Handle.Counter v)
    rw [Registry.op_get_self, h]
    show some (0, Handle.Counter (0 + v)) = some (0, Handle.Counter v)
    rw [Nat.zero_add]
  refine ⟨h1, ?_⟩
  have h2 : (s.register_counter k none none).registry.get (MetricKind.Counter, k)
      = some (0, Handle.Counter 0) := by
    rw [register_counter_registry, Registry.op_get_self, h]
    rfl
  have h3 : ((s.register_counter k none none).increment_counter k v).registry.get
      (MetricKind.Counter, k) = some (1, Handle.Counter v) := by
    show (((s.register_counter k none none).registry.op MetricKind.Counter k
        (fun h => h.increment_counter v) Handle.counter).get (MetricKind.Counter, k))
      = some (1, Handle.Counter v)
    rw [Registry.op_get_self, h2]
    show some (0 + 1, Handle.Counter (0 + v)) = some (1, Handle.Counter v)
    rw [Nat.zero_add, Nat.zero_add]
  rw [h1, h3]
  rfl

/-- Witness for C5 at a concrete never-registered key on a freshly built
recorder. -/
theorem implicit_counter_registration_witness :
    (((OtelBuilder.new.build).increment_counter kDemo 3).registry.get
        (MetricKind.Counter, kDemo) = some (0, Handle.Counter 3))
    ∧ ((((OtelBuilder.new.build).increment_counter kDemo 3).registry.get
          (MetricKind.Counter, kDemo)).map Prod.snd
        = ((((OtelBuilder.new.build).register_counter kDemo none none).increment_counter
              kDemo 3).registry.get (MetricKind.Counter, kDemo)).map Prod.snd) :=
  implicit_counter_registration (OtelBuilder.new.build) kDemo 3 rfl

/-- C6: every handle the recorder ever stores in the registry is a
counter-variant handle — all six `registry.op` call sites in `recorder.rs` pass
`Handle::counter` as the init function, including the entries created under the
Gauge and Histogram kinds — so from any state satisfying the all-counters
invariant (in particular a freshly built recorder), any sequence of recorder
calls preserves it, and no gauge- or histogram-variant handle is ever created. -/
theorem registry_counter_only (s : MeterRecorder) (hs : counterOnly s.registry)
    (ops : List RecOp) : counterOnly (runOps ops s).registry := by
  induction ops generalizing s with
  | nil => exact hs
  | cons o ops ih =>
    have hstep : runOps (o :: ops) s = runOps ops (o.apply s) := rfl
    rw [hstep]
    exact ih (o.apply s) (counterOnly_apply o s hs)

/-- Witness for C6: a fresh recorder satisfies the invariant, and after a
`record_histogram` call the handle stored under the Histogram kind is indeed the
counter variant. -/
theorem registry_counter_only_witness :
    Handle.isCounterVariant (Handle.Counter 0) = true :=
  registry_counter_only (OtelBuilder.new.build)
    (fun rk gen h hh => Option.noConfusion hh)
    [RecOp.recordHistogram kDemo2 1]
    (MetricKind.Histogram, kDemo2) 0 (Handle.Counter 0) (by decide)

/-- C7: registering the same name under two kinds yields two entries under two
distinct registry keys sharing the name: the counter registration does not touch
the `(Gauge, key)` slot, the gauge registration does not touch the
`(Counter, key)` slot, and after both calls both slots are occupied. -/
theorem same_name_two_kinds_independent (s : MeterRecorder) (k : Key)
    (u1 d1 u2 d2 : Option String) :
    (((MetricKind.Counter, k) : RegistryKey) ≠ (MetricKind.Gauge, k))
    ∧ (((s.register_counter k u1 d1).register_gauge k u2 d2).registry.get
          (MetricKind.Counter, k)
        = (s.register_counter k u1 d1).registry.get (MetricKind.Counter, k))
    ∧ ((s.register_counter k u1 d1).registry.get (MetricKind.Gauge, k)
        = s.registry.get (MetricKind.Gauge, k))
    ∧ ((((s.register_counter k u1 d1).register_gauge k u2 d2).registry.get
          (MetricKind.Counter, k)).isSome = true)
    ∧ ((((s.register_counter k u1 d1).register_gauge k u2 d2).registry.get
          (MetricKind.Gauge, k)).isSome = true) := by
  have hne : ((MetricKind.Counter, k) : RegistryKey) ≠ (MetricKind.Gauge, k) := by
    simp [Prod.ext_iff]
  have hc : ((s.register_counter k u1 d1).register_gauge k u2 d2).registry.get
      (MetricKind.Counter, k)
      = (s.register_counter k u1 d1).registry.get (MetricKind.Counter, k) := by
    rw [register_gauge_registry]
    exact Registry.op_get_ne _ _ _ _ _ _ hne
  have hg : (s.register_counter k u1 d1).registry.get (MetricKind.Gauge, k)
      = s.registry.get (MetricKind.Gauge, k) := by
    rw [register_counter_registry]
    exact Registry.op_get_ne _ _ _ _ _ _ (by simp [Prod.ext_iff])
  refine ⟨hne, hc, hg, ?_, ?_⟩
  · rw [hc, register_counter_registry]
    exact Registry.op_get_self_isSome _ _ _ _ _
  · rw [register_gauge_registry]
    exact Registry.op_get_self_isSome _ _ _ _ _

/-- Witness for C7 on a freshly built recorder at a concrete key. -/
theorem same_name_two_kinds_independent_witness :
    ((((OtelBuilder.new.build).register_counter kDemo none none).register_gauge
        kDemo none none).registry.get (MetricKind.Gauge, kDemo)).isSome = true :=
  (same_name_two_kinds_independent (OtelBuilder.new.build) kDemo
    none none none none).2.2.2.2

/-- C8: the description/unit metadata cache is first-write-wins.  Once a
description (respectively unit) is stored for a name, no later register call of
any kind — whatever description or unit it carries — changes it. -/
theorem details_first_write_wins (s : MeterRecorder) (name dv uv : String)
    (k : Key) (u2 d2 : Option String) :
    (s.descriptions name = some dv →
      ((s.register_counter k u2 d2).descriptions name = some dv
       ∧ (s.register_gauge k u2 d2).descriptions name = some dv
       ∧ (s.register_histogram k u2 d2).descriptions name = some dv))
    ∧ (s.units name = some uv →
      ((s.register_counter k u2 d2).units name = some uv
       ∧ (s.register_gauge k u2 d2).units name = some uv
       ∧ (s.register_histogram k u2 d2).units name = some uv)) := by
  constructor
  · intro h
    refine ⟨?_, ?_, ?_⟩ <;>
      exact add_details_if_missing_descriptions_mono s k d2 u2 name dv h
  · intro h
    refine ⟨?_, ?_, ?_⟩ <;>
      exact add_details_if_missing_units_mono s k d2 u2 name uv h

/-- Witness for C8: register a counter with description and unit, then register
again (as a counter and as a gauge) with different metadata; the
first-registered values survive. -/
theorem details_first_write_wins_witness :
    ((((OtelBuilder.new.build).register_counter kDemo (some "ms")
        (some "first")).register_counter kDemo (some "s") (some "second")).descriptions
        kDemo.name = some "first")
    ∧ ((((OtelBuilder.new.build).register_counter kDemo (some "ms")
        (some "first")).register_gauge kDemo (some "s") (some "second")).units
        kDemo.name = some "ms") :=
  ⟨((details_first_write_wins
      ((OtelBuilder.new.build).register_counter kDemo (some "ms") (some "first"))
      kDemo.name "first" "ms" kDemo (some "s") (some "second")).1 (by decide)).1,
   ((details_first_write_wins
      ((OtelBuilder.new.build).register_counter kDemo (some "ms") (some "first"))
      kDemo.name "first" "ms" kDemo (some "s") (some "second")).2 (by decide)).2.1⟩

/-- Registering with a no-op mutation twice on the same slot leaves the stored
handle unchanged (only the generation is bumped). -/
lemma op_id_twice_snd (r : Registry) (kind : MetricKind) (k : Key) (i : Handle) :
    ((((r.op kind k (fun h => h) i).op kind k (fun h => h) i).get (kind, k)).map Prod.snd)
      = (((r.op kind k (fun h => h) i).get (kind, k)).map Prod.snd) := by
  rw [Registry.op_get_self, Registry.op_get_self]
  rcases hx : r.get (kind, k) with _ | ⟨g, h⟩ <;> rfl

/-- C9: registering the same `(kind, key)` twice is idempotent at the registry
level — for each kind, the second register call leaves the stored handle (and so
its value) exactly as the first left it, and the slot is occupied. -/
theorem register_twice_idempotent (s : MeterRecorder) (k : Key)
    (u1 d1 u2 d2 : Option String) :
    (((((s.register_counter k u1 d1).register_counter k u2 d2).registry.get
          (MetricKind.Counter, k)).map Prod.snd)
        = (((s.register_counter k u1 d1).registry.get (MetricKind.Counter, k)).map
            Prod.snd))
    ∧ ((((s.register_counter k u1 d1).registry.get (MetricKind.Counter, k)).isSome
        = true))
    ∧ (((((s.register_gauge k u1 d1).register_gauge k u2 d2).registry.get
          (MetricKind.Gauge, k)).map Prod.snd)
        = (((s.register_gauge k u1 d1).registry.get (MetricKind.Gauge, k)).map
            Prod.snd))
    ∧ (((((s.register_histogram k u1 d1).register_histogram k u2 d2).registry.get
          (MetricKind.Histogram, k)).map Prod.snd)
        = (((s.register_histogram k u1 d1).registry.get (MetricKind.Histogram, k)).map
            Prod.snd)) := by
  refine ⟨?_, ?_, ?_, ?_⟩
  · rw [register_counter_registry, register_counter_registry]
    exact op_id_twice_snd s.registry MetricKind.Counter k Handle.counter
  · rw [register_counter_registry]
    exact Registry.op_get_self_isSome _ _ _ _ _
  · rw [register_gauge_registry, register_gauge_registry]
    exact op_id_twice_snd s.registry MetricKind.Gauge k Handle.counter
  · rw [register_histogram_registry, register_histogram_registry]
    exact op_id_twice_snd s.registry MetricKind.Histogram k Handle.counter

/-- Witness for C9 on a freshly built recorder at a concrete key. -/
theorem register_twice_idempotent_witness :
    (((((OtelBuilder.new.build).register_counter kDemo3 none none).register_counter
          kDemo3 (some "s") (some "again")).registry.get
          (MetricKind.Counter, kDemo3)).map Prod.snd)
      = ((((OtelBuilder.new.build).register_counter kDemo3 none none).registry.get
            (MetricKind.Counter, kDemo3)).map Prod.snd) :=
  (register_twice_idempotent (OtelBuilder.new.build) kDemo3 none none
    (some "s") (some "again")).1

/-- C10: if no idle timeout is configured — the builder's `timeout` was never
called, or it was called with `None` — staleness tracking is disabled:
`should_store` on the built recorder's recency filter returns true for every
kind, key, generation, registry and time, changes no bookkeeping and evicts no
registry entry; the fresh builder carries no timeout; and `timeout` with `None`
leaves the builder with no timeout. -/
theorem no_timeout_never_stale :
    (∀ (b : OtelBuilder), b.idle_timeout = none →
      ∀ (kind : MetricKind) (key : Key) (gen : ℕ) (reg : Registry) (now : ℕ),
        ((b.build).recency).should_store kind key gen reg now
          = (true, (b.build).recency, reg))
    ∧ (OtelBuilder.new.idle_timeout = none)
    ∧ (∀ (b : OtelBuilder) (m : MetricKindMask),
        (b.timeout m none).idle_timeout = none) := by
  refine ⟨?_, rfl, ?_⟩
  · intro b hb kind key gen reg now
    exact should_store_no_timeout ((b.build).recency) hb kind key gen reg now
  · intro b m
    rfl

/-- Witness for C10 at a concrete input on the default builder. -/
theorem no_timeout_never_stale_witness :
    ((OtelBuilder.new.build).recency).should_store MetricKind.Counter kDemo3 0
        Registry.tracked 99
      = (true, (OtelBuilder.new.build).recency, Registry.tracked) :=
  no_timeout_never_stale.1 OtelBuilder.new rfl MetricKind.Counter kDemo3 0
    Registry.tracked 99
